import Mathlib

/-!
Shallow embedding of the aave-monitoring-tool core (src/main.rs,
src/chains/mod.rs, src/chains/ethereum.rs) for checking the spec's claims.

Modelling conventions:
* `U256` amounts are embedded as `Nat`.  The ethers `U256` type panics on
  addition overflow (it does not wrap), so the two additions in the code are
  embedded as checked additions returning `Option Nat` (`none` = panic at
  2^256).  Subtraction never overflows in the code (it is guarded).
* Mutex lock acquisition (`POSITION_DATA.lock()`) only fails on poisoning,
  which cannot occur in this single-writer model; lock operations are embedded
  as always succeeding.
* Ethereum addresses and 32-byte topic hashes are embedded as `Nat`
  (their numeric value).
* The alloy ABI decoder is an external collaborator; a raw log carries the
  outcome the decoder would produce for it (`some record` or `none` for a
  decode failure).
* `f64` arithmetic in the health evaluator is embedded as exact rational
  arithmetic extended with the IEEE-754 special values NaN and ±infinity
  (`FVal` below).  Rounding of finite magnitudes is not modelled; the
  special-value behaviour (x/0, comparisons with NaN and infinity), which is
  what the health-factor claims turn on, is rounding-independent.
-/

namespace AaveMonitor

/-- Capacity of the ethers `U256` type. -/
def U256_LIMIT : Nat := 2 ^ 256

/-- ethers `U256` addition: panics (here `none`) on overflow instead of
wrapping. -/
def u256_add (a b : Nat) : Option Nat :=
  if a + b < U256_LIMIT then some (a + b) else none

/-- `PositionData` struct (ethereum.rs lines 16-20): supplied and borrowed
amounts in token base units. -/
structure PositionData where
  supplied_amount : Nat
  borrowed_amount : Nat
deriving DecidableEq, Repr

/-- `PositionData::new` (ethereum.rs lines 23-28): both fields zero. -/
def PositionData.new : PositionData :=
  { supplied_amount := 0, borrowed_amount := 0 }

/-- `update_supplied_amount` (ethereum.rs lines 30-32 / 53-59): overwrite the
supplied amount in the store. -/
def update_supplied_amount (p : PositionData) (new_amount : Nat) : PositionData :=
  { p with supplied_amount := new_amount }

/-- `update_borrowed_amount` (ethereum.rs lines 34-36 / 62-68): overwrite the
borrowed amount in the store. -/
def update_borrowed_amount (p : PositionData) (new_amount : Nat) : PositionData :=
  { p with borrowed_amount := new_amount }

/-- `refresh_position_after_supply` (ethereum.rs lines 132-143):
supplied += amount, with the U256 addition panicking on overflow. -/
def refresh_position_after_supply (p : PositionData) (amount : Nat) :
    Option PositionData :=
  (u256_add p.supplied_amount amount).map (update_supplied_amount p)

/-- `refresh_position_after_withdraw` (ethereum.rs lines 145-160):
supplied = supplied - amount when supplied >= amount, else 0. -/
def refresh_position_after_withdraw (p : PositionData) (amount : Nat) :
    PositionData :=
  update_supplied_amount p
    (if p.supplied_amount ≥ amount then p.supplied_amount - amount else 0)

/-- `refresh_position_after_repay` (ethereum.rs lines 162-177):
borrowed = borrowed - amount when borrowed >= amount, else 0. -/
def refresh_position_after_repay (p : PositionData) (amount : Nat) :
    PositionData :=
  update_borrowed_amount p
    (if p.borrowed_amount ≥ amount then p.borrowed_amount - amount else 0)

/-- `refresh_position_after_borrow` (ethereum.rs lines 179-190):
borrowed += amount, with the U256 addition panicking on overflow. -/
def refresh_position_after_borrow (p : PositionData) (amount : Nat) :
    Option PositionData :=
  (u256_add p.borrowed_amount amount).map (update_borrowed_amount p)

/-! ### Delta sequences (Position Store apply-delta operation) -/

/-- The four event kinds the reconciliation loop applies. -/
inductive DeltaKind where
  | supply
  | withdraw
  | repay
  | borrow
deriving DecidableEq, Repr

/-- One delta to apply to the position. -/
structure Delta where
  kind : DeltaKind
  amount : Nat
deriving DecidableEq, Repr

/-- Dispatch of one delta to the matching `refresh_position_after_*`
function, as the four branches of `ethereum_listening` do. -/
def applyDelta (p : PositionData) (d : Delta) : Option PositionData :=
  match d.kind with
  | .supply => refresh_position_after_supply p d.amount
  | .withdraw => some (refresh_position_after_withdraw p d.amount)
  | .repay => some (refresh_position_after_repay p d.amount)
  | .borrow => refresh_position_after_borrow p d.amount

/-- Apply a finite sequence of deltas in order. -/
def applyDeltas (p : PositionData) : List Delta → Option PositionData
  | [] => some p
  | d :: ds =>
    match applyDelta p d with
    | none => none
    | some p' => applyDeltas p' ds

/-- Spec-side signed-delta step, following §4.2 of the spec: Supply and
Borrow add, Withdraw and Repay subtract clamped at 0 via `max`. -/
def specClampStep (s : Int × Int) (d : Delta) : Int × Int :=
  match d.kind with
  | .supply => (s.1 + d.amount, s.2)
  | .withdraw => (max 0 (s.1 - d.amount), s.2)
  | .repay => (s.1, max 0 (s.2 - d.amount))
  | .borrow => (s.1, s.2 + d.amount)

/-- Spec-side fold of signed deltas clamped at each step. -/
def specClampFold (s : Int × Int) (ds : List Delta) : Int × Int :=
  ds.foldl specClampStep s

/-! ### Reconciliation loop (log filtering, classification, application) -/

/-- Topic hash of the Aave Pool V3 Supply event (ethereum.rs line 75). -/
def SUPPLY_EVENT_TOPIC : Nat :=
  0x2b627736bca15cd5381dcf80b0bf11fd197d01a037c52b927a881a10fb73ba61

/-- Topic hash of the Aave Pool V3 Withdraw event (ethereum.rs line 77). -/
def WITHDRAW_EVENT_TOPIC : Nat :=
  0x3115d1449a7b732c986cba18244e897a450f61e1bb8d589cd2e69e6c8924f9f7

/-- Topic hash of the Aave Pool Repay event (ethereum.rs line 79). -/
def REPAY_EVENT_TOPIC : Nat :=
  0xa534c8dbe71f871f9f3530e97a74601fea17b426cae02e1c5aee42c96c784051

/-- Topic hash of the Aave Pool V3 Borrow event (ethereum.rs line 81). -/
def BORROW_EVENT_TOPIC : Nat :=
  0xb3d084820fb1a9decffb176436bd02558d15fac9b0ddfed8c465bc7359d7dce0

/-- Tracked pool contract and user (chains/mod.rs `get_pool_v3_address`,
`get_user_address_to_track`), parsed to addresses in `ethereum_listening`. -/
structure TrackedFilter where
  pool_address : Nat
  user_address : Nat
deriving DecidableEq, Repr

/-- The fields of a decoded Supply/Withdraw/Repay/Borrow event that the
listener reads: `reserve` is never consulted, `user` is compared against the
tracked user and `amount` is applied. -/
structure DecodedEvent where
  reserve : Nat
  user : Nat
  amount : Nat
deriving DecidableEq, Repr

/-- A raw log as returned by `get_logs`: emitting address, topic list, and
the outcome the alloy decoder (`fetch_event` / `decode_log_object`) would
produce for its data (`none` models a decode failure). -/
structure RawLog where
  address : Nat
  topics : List Nat
  decode_result : Option DecodedEvent
deriving DecidableEq, Repr

/-- How processing one log can abort: a decode failure propagated by `?`
out of `ethereum_listening` (ethereum.rs lines 258-259 and 286-346), or the
U256 addition panic inside `refresh_position_after_supply`/`_borrow`. -/
inductive ListenError where
  | decodeError
  | overflowPanic
deriving DecidableEq, Repr

/-- One iteration of the per-log loop of `ethereum_listening`
(ethereum.rs lines 273-358).  Returns the position after the log together
with a flag recording whether a decode of the log's data was attempted.
Mirrors the source order: the address guard first, then topic 0 extraction
(missing topic: log an error and continue), then the four `fetch_event`
branches, each of which attempts a decode only when topic 0 equals its
event-signature hash, and on success discards records whose user is not the
tracked user before applying the matching refresh function. -/
def process_log (f : TrackedFilter) (st : PositionData) (log : RawLog) :
    Except ListenError (PositionData × Bool) :=
  if log.address ≠ f.pool_address then
    .ok (st, false)
  else
    match log.topics.head? with
    | none => .ok (st, false)
    | some topic =>
      if topic = SUPPLY_EVENT_TOPIC then
        match log.decode_result with
        | none => .error .decodeError
        | some ev =>
          if ev.user ≠ f.user_address then .ok (st, true)
          else
            match refresh_position_after_supply st ev.amount with
            | none => .error .overflowPanic
            | some st' => .ok (st', true)
      else if topic = WITHDRAW_EVENT_TOPIC then
        match log.decode_result with
        | none => .error .decodeError
        | some ev =>
          if ev.user ≠ f.user_address then .ok (st, true)
          else .ok (refresh_position_after_withdraw st ev.amount, true)
      else if topic = REPAY_EVENT_TOPIC then
        match log.decode_result with
        | none => .error .decodeError
        | some ev =>
          if ev.user ≠ f.user_address then .ok (st, true)
          else .ok (refresh_position_after_repay st ev.amount, true)
      else if topic = BORROW_EVENT_TOPIC then
        match log.decode_result with
        | none => .error .decodeError
        | some ev =>
          if ev.user ≠ f.user_address then .ok (st, true)
          else
            match refresh_position_after_borrow st ev.amount with
            | none => .error .overflowPanic
            | some st' => .ok (st', true)
      else .ok (st, false)

/-- The `for log in logs` loop over one block's batch: each `fetch_event`
error is propagated by `?`, which aborts the loop (and `ethereum_listening`
itself) at the first failing log. -/
def process_logs (f : TrackedFilter) (st : PositionData) :
    List RawLog → Except ListenError PositionData
  | [] => .ok st
  | log :: rest =>
    match process_log f st log with
    | .error e => .error e
    | .ok (st', _) => process_logs f st' rest

/-! ### Position initialisation (C5) -/

/-- The configuration environment as read by chains/mod.rs: a variable is
`some n` when it is set and parses as `u64`, `none` otherwise. -/
structure EnvConfig where
  initial_supplied_amount : Option Nat
  initial_borrowed_amount : Option Nat
deriving DecidableEq, Repr

/-- `chains::get_position_data` (chains/mod.rs lines 24-38): starts from
`PositionData::new()` and overwrites each field from its environment
variable when present.  Used only by `print_initial_configuration`. -/
def chains_get_position_data (env : EnvConfig) : PositionData :=
  let p := PositionData.new
  let p :=
    match env.initial_supplied_amount with
    | some a => { p with supplied_amount := a }
    | none => p
  match env.initial_borrowed_amount with
  | some a => { p with borrowed_amount := a }
  | none => p

/-- Initial value of the `POSITION_DATA` global (ethereum.rs lines 40-42):
the lazy_static initialiser is `PositionData::new()`, independent of any
configuration.  main.rs imports `ethereum_chain::get_position_data`, which
reads this global, for both the health evaluator and the listener. -/
def ethereum_initial_position : PositionData := PositionData.new

/-! ### f64 model and health evaluation (main.rs) -/

/-- IEEE-754 double values as used by the health evaluator: exact rationals
plus NaN and the two infinities.  Rounding of finite magnitudes is not
modelled (see file header). -/
inductive FVal where
  | nan
  | posInf
  | negInf
  | fin (q : ℚ)
deriving DecidableEq, Repr

/-- IEEE multiplication on `FVal`: NaN propagates, infinity times zero is
NaN, infinity times a signed nonzero value carries the product sign. -/
def fmul : FVal → FVal → FVal
  | .nan, _ => .nan
  | _, .nan => .nan
  | .posInf, .posInf => .posInf
  | .posInf, .negInf => .negInf
  | .negInf, .posInf => .negInf
  | .negInf, .negInf => .posInf
  | .posInf, .fin q => if 0 < q then .posInf else if q < 0 then .negInf else .nan
  | .negInf, .fin q => if 0 < q then .negInf else if q < 0 then .posInf else .nan
  | .fin q, .posInf => if 0 < q then .posInf else if q < 0 then .negInf else .nan
  | .fin q, .negInf => if 0 < q then .negInf else if q < 0 then .posInf else .nan
  | .fin a, .fin b => .fin (a * b)

/-- IEEE division on `FVal`: NaN propagates, infinity over infinity and zero
over zero are NaN, a nonzero finite value over zero is a signed infinity
(f64 division by zero does not trap).  Signed zero is not modelled; the
denominators in this program arise from non-negative products. -/
def fdiv : FVal → FVal → FVal
  | .nan, _ => .nan
  | _, .nan => .nan
  | .posInf, .posInf => .nan
  | .posInf, .negInf => .nan
  | .negInf, .posInf => .nan
  | .negInf, .negInf => .nan
  | .posInf, .fin q => if 0 ≤ q then .posInf else .negInf
  | .negInf, .fin q => if 0 ≤ q then .negInf else .posInf
  | .fin _, .posInf => .fin 0
  | .fin _, .negInf => .fin 0
  | .fin a, .fin b =>
    if b = 0 then
      if a = 0 then .nan else if 0 < a then .posInf else .negInf
    else .fin (a / b)

/-- IEEE `>` on `FVal`: any comparison involving NaN is false. -/
def fgt : FVal → FVal → Bool
  | .nan, _ => false
  | _, .nan => false
  | .posInf, .posInf => false
  | .posInf, _ => true
  | .negInf, _ => false
  | .fin _, .posInf => false
  | .fin _, .negInf => true
  | .fin a, .fin b => b < a

/-- `PriceResult` struct (main.rs lines 288-293).  The evaluator uses only
`price`; decimals come from the token-decimals configuration instead. -/
structure PriceResult where
  symbol : String
  price : FVal
  decimals : Nat
deriving DecidableEq, Repr

/-- Core computation of `is_health_factor_in_liquidation_range`
(main.rs lines 122-134), after both prices have been obtained:
USD values of the supplied and borrowed amounts, their ratio as the health
factor, and comparison against the liquidation threshold. -/
def health_factor_breached (pos : PositionData)
    (supply_price borrowed_price : FVal)
    (supply_token_decimals borrowed_token_decimals : Nat)
    (liquidation_threshold : FVal) : Bool :=
  let supply_in_usd :=
    fdiv (fmul supply_price (.fin (pos.supplied_amount : ℚ)))
      (.fin ((10 : ℚ) ^ supply_token_decimals))
  let borrowed_in_usd :=
    fdiv (fmul borrowed_price (.fin (pos.borrowed_amount : ℚ)))
      (.fin ((10 : ℚ) ^ borrowed_token_decimals))
  let health_factor := fdiv borrowed_in_usd supply_in_usd
  fgt health_factor liquidation_threshold

/-- One call of `is_health_factor_in_liquidation_range` (main.rs lines
88-135) given the outcomes of the two `get_price` calls: a missing price
hits `.expect(...)` and panics (modelled as `Except.error` carrying the
expect message); otherwise the boolean verdict is returned. -/
def is_health_factor_in_liquidation_range (pos : PositionData)
    (supply_price_result borrowed_price_result : Option PriceResult)
    (supply_token_decimals borrowed_token_decimals : Nat)
    (liquidation_threshold : FVal) : Except String Bool :=
  match supply_price_result with
  | none => .error "Failed to get supply price"
  | some sp =>
    match borrowed_price_result with
    | none => .error "Failed to get borrowed price"
    | some bp =>
      .ok (health_factor_breached pos sp.price bp.price
        supply_token_decimals borrowed_token_decimals liquidation_threshold)

/-- Inputs of one evaluation cycle of the health-evaluator task: the
position read from the store and the two `get_price` outcomes, with the
configured decimals and threshold. -/
structure EvalCycle where
  position : PositionData
  supply_price_result : Option PriceResult
  borrowed_price_result : Option PriceResult
  supply_token_decimals : Nat
  borrowed_token_decimals : Nat
  liquidation_threshold : FVal
deriving DecidableEq, Repr

/-- Run `is_health_factor_in_liquidation_range` on one cycle's inputs. -/
def run_eval_cycle (c : EvalCycle) : Except String Bool :=
  is_health_factor_in_liquidation_range c.position c.supply_price_result
    c.borrowed_price_result c.supply_token_decimals c.borrowed_token_decimals
    c.liquidation_threshold

/-- The health-evaluator task's loop (main.rs lines 69-81): evaluate each
cycle in turn, collecting verdicts; a panic inside a cycle (the `.expect`
on a missing price) unwinds the spawned task, so no later cycle runs and
nothing restarts the task. -/
def health_evaluator_loop : List EvalCycle → Except String (List Bool)
  | [] => .ok []
  | c :: rest =>
    match run_eval_cycle c with
    | .error e => .error e
    | .ok b =>
      match health_evaluator_loop rest with
      | .error e => .error e
      | .ok bs => .ok (b :: bs)

/-! ### Concrete data for counterexamples and witnesses -/

/-- The default tracked pool and user (chains/mod.rs lines 41-49). -/
def defaultTrackedFilter : TrackedFilter :=
  { pool_address := 0x87870Bca3F3fD6335C3F4ce8392D69350B4fA4E2
    user_address := 0xBDD3B59416Fc0263354953aeeFC51Ba3A94E134e }

/-- USDT contract address (the default supply token, chains/mod.rs). -/
def USDT_ADDRESS : Nat := 0xdac17f958d2ee523a2206206994597c13d831ec7

/-- A pool log with the Supply topic whose data fails to decode. -/
def decodeFailLog : RawLog :=
  { address := defaultTrackedFilter.pool_address
    topics := [SUPPLY_EVENT_TOPIC]
    decode_result := none }

/-- A pool Supply log of 100 base units by the tracked user. -/
def supplyLog100 : RawLog :=
  { address := defaultTrackedFilter.pool_address
    topics := [SUPPLY_EVENT_TOPIC]
    decode_result := some ⟨USDT_ADDRESS, defaultTrackedFilter.user_address, 100⟩ }

/-- A Supply log from a different emitting contract, with a matching topic
and decodable data for the tracked user. -/
def foreignPoolLog : RawLog :=
  { address := 0x1111111111111111111111111111111111111111
    topics := [SUPPLY_EVENT_TOPIC]
    decode_result := some ⟨USDT_ADDRESS, defaultTrackedFilter.user_address, 100⟩ }

/-- A pool Supply log that decodes to an event of an untracked user. -/
def untrackedUserLog : RawLog :=
  { address := defaultTrackedFilter.pool_address
    topics := [SUPPLY_EVENT_TOPIC]
    decode_result := some ⟨USDT_ADDRESS, 0x2222222222222222222222222222222222222222, 100⟩ }

/-- An evaluation cycle whose supply-token price is absent. -/
def cycleMissingPrice : EvalCycle :=
  { position := ⟨1000000, 1000000⟩
    supply_price_result := none
    borrowed_price_result := some ⟨"WBTC", .fin 60000, 8⟩
    supply_token_decimals := 6
    borrowed_token_decimals := 8
    liquidation_threshold := .fin (89 / 100) }

/-- An evaluation cycle with both prices present (the §8 scenario of the
spec: 1 USDT supplied, 0.01 WBTC borrowed, ratio 600). -/
def cycleGoodPrices : EvalCycle :=
  { position := ⟨1000000, 1000000⟩
    supply_price_result := some ⟨"USDT", .fin 1, 6⟩
    borrowed_price_result := some ⟨"WBTC", .fin 60000, 8⟩
    supply_token_decimals := 6
    borrowed_token_decimals := 8
    liquidation_threshold := .fin (89 / 100) }

/-! ### Helper lemmas -/

/-- One applied delta agrees with the spec's clamped signed-delta step. -/
theorem applyDelta_eq_specClampStep (p q : PositionData) (d : Delta)
    (h : applyDelta p d = some q) :
    ((q.supplied_amount : ℤ), (q.borrowed_amount : ℤ)) =
      specClampStep ((p.supplied_amount : ℤ), (p.borrowed_amount : ℤ)) d := by
  obtain ⟨k, a⟩ := d
  cases k
  case supply =>
    simp only [applyDelta, refresh_position_after_supply, u256_add] at h
    split at h
    · simp only [Option.map_some', Option.some.injEq] at h
      subst h
      simp only [specClampStep, update_supplied_amount, Prod.mk.injEq]
      refine ⟨by push_cast; ring, trivial⟩
    · simp at h
  case withdraw =>
    simp only [applyDelta, refresh_position_after_withdraw,
      update_supplied_amount, Option.some.injEq] at h
    subst h
    simp only [specClampStep, Prod.mk.injEq]
    refine ⟨?_, trivial⟩
    split <;> push_cast <;> omega
  case repay =>
    simp only [applyDelta, refresh_position_after_repay,
      update_borrowed_amount, Option.some.injEq] at h
    subst h
    simp only [specClampStep, Prod.mk.injEq]
    refine ⟨trivial, ?_⟩
    split <;> push_cast <;> omega
  case borrow =>
    simp only [applyDelta, refresh_position_after_borrow, u256_add] at h
    split at h
    · simp only [Option.map_some', Option.some.injEq] at h
      subst h
      simp only [specClampStep, update_borrowed_amount, Prod.mk.injEq]
      refine ⟨trivial, by push_cast; ring⟩
    · simp at h

/-- A successful run of the code's delta application equals the spec's
clamped fold of signed deltas. -/
theorem applyDeltas_eq_specClampFold (ds : List Delta) :
    ∀ p p' : PositionData, applyDeltas p ds = some p' →
      ((p'.supplied_amount : ℤ), (p'.borrowed_amount : ℤ)) =
        specClampFold ((p.supplied_amount : ℤ), (p.borrowed_amount : ℤ)) ds := by
  induction ds with
  | nil =>
    intro p p' h
    simp only [applyDeltas, Option.some.injEq] at h
    subst h
    rfl
  | cons d ds ih =>
    intro p p' h
    simp only [applyDeltas] at h
    cases hd : applyDelta p d with
    | none => rw [hd] at h; cases h
    | some q =>
      rw [hd] at h
      have hstep := applyDelta_eq_specClampStep p q d hd
      have htail := ih q p' h
      rw [htail, hstep]
      rfl

/-! ### Claim theorems -/

/-- C1: applying a Withdraw whose amount exceeds the supplied amount sets
the supplied amount to exactly 0, and applying a Repay whose amount exceeds
the borrowed amount sets the borrowed amount to exactly 0; both operations
are total (never an error), and the result is a natural number, never
negative. -/
theorem c1_overshoot_clamps_to_zero (p : PositionData) (wa ra : Nat)
    (hw : p.supplied_amount < wa) (hr : p.borrowed_amount < ra) :
    (refresh_position_after_withdraw p wa).supplied_amount = 0 ∧
    (refresh_position_after_repay p ra).borrowed_amount = 0 := by
  constructor
  · simp only [refresh_position_after_withdraw, update_supplied_amount]
    rw [if_neg (by omega)]
  · simp only [refresh_position_after_repay, update_borrowed_amount]
    rw [if_neg (by omega)]

/-- Witness for C1 at the position {supplied := 3, borrowed := 4} with
withdraw amount 10 and repay amount 10. -/
theorem c1_witness :
    (refresh_position_after_withdraw ⟨3, 4⟩ 10).supplied_amount = 0 ∧
    (refresh_position_after_repay ⟨3, 4⟩ 10).borrowed_amount = 0 :=
  c1_overshoot_clamps_to_zero ⟨3, 4⟩ 10 10 (by decide) (by decide)

/-- C2: whenever a finite delta sequence applies without panic, the
resulting supplied and borrowed amounts equal the spec's fold of signed
deltas clamped at each step and are ≥ 0 (this holds for every sequence,
hence for every prefix, i.e. after every step); and the concrete scenario
{1000, 0} → Borrow 500 → {1000, 500} → Repay 700 → {1000, 0} →
Withdraw 1200 → {0, 0} computes as claimed. -/
theorem c2_clamped_fold_invariant :
    (∀ (p : PositionData) (ds : List Delta) (p' : PositionData),
        applyDeltas p ds = some p' →
          (p'.supplied_amount : ℤ) =
            (specClampFold ((p.supplied_amount : ℤ), (p.borrowed_amount : ℤ)) ds).1 ∧
          (p'.borrowed_amount : ℤ) =
            (specClampFold ((p.supplied_amount : ℤ), (p.borrowed_amount : ℤ)) ds).2 ∧
          0 ≤ (specClampFold ((p.supplied_amount : ℤ), (p.borrowed_amount : ℤ)) ds).1 ∧
          0 ≤ (specClampFold ((p.supplied_amount : ℤ), (p.borrowed_amount : ℤ)) ds).2) ∧
    applyDeltas ⟨1000, 0⟩ [⟨.borrow, 500⟩] = some ⟨1000, 500⟩ ∧
    applyDeltas ⟨1000, 0⟩ [⟨.borrow, 500⟩, ⟨.repay, 700⟩] = some ⟨1000, 0⟩ ∧
    applyDeltas ⟨1000, 0⟩ [⟨.borrow, 500⟩, ⟨.repay, 700⟩, ⟨.withdraw, 1200⟩] =
      some ⟨0, 0⟩ := by
  refine ⟨?_, by decide, by decide, by decide⟩
  intro p ds p' h
  have heq := applyDeltas_eq_specClampFold ds p p' h
  refine ⟨?_, ?_, ?_, ?_⟩
  · exact congrArg Prod.fst heq
  · exact congrArg Prod.snd heq
  · rw [← congrArg Prod.fst heq]; exact Int.natCast_nonneg _
  · rw [← congrArg Prod.snd heq]; exact Int.natCast_nonneg _

/-- Witness for C2: the general clamped-fold statement instantiated on the
claim's concrete scenario. -/
theorem c2_witness :
    ((⟨0, 0⟩ : PositionData).supplied_amount : ℤ) =
      (specClampFold ((1000 : ℤ), (0 : ℤ))
        [⟨.borrow, 500⟩, ⟨.repay, 700⟩, ⟨.withdraw, 1200⟩]).1 :=
  (c2_clamped_fold_invariant.1 ⟨1000, 0⟩
    [⟨.borrow, 500⟩, ⟨.repay, 700⟩, ⟨.withdraw, 1200⟩] ⟨0, 0⟩ (by decide)).1

/-- C9: Withdraw and Supply leave the borrowed amount unchanged, and Repay
and Borrow leave the supplied amount unchanged (for Supply and Borrow,
whenever the U256 addition does not panic). -/
theorem c9_frame_conditions (p : PositionData) (a : Nat) :
    (refresh_position_after_withdraw p a).borrowed_amount = p.borrowed_amount ∧
    (refresh_position_after_repay p a).supplied_amount = p.supplied_amount ∧
    (∀ p', refresh_position_after_supply p a = some p' →
      p'.borrowed_amount = p.borrowed_amount) ∧
    (∀ p', refresh_position_after_borrow p a = some p' →
      p'.supplied_amount = p.supplied_amount) := by
  refine ⟨rfl, rfl, ?_, ?_⟩
  · intro p' h
    simp only [refresh_position_after_supply, u256_add] at h
    split at h
    · simp only [Option.map_some', Option.some.injEq] at h
      subst h
      rfl
    · simp at h
  · intro p' h
    simp only [refresh_position_after_borrow, u256_add] at h
    split at h
    · simp only [Option.map_some', Option.some.injEq] at h
      subst h
      rfl
    · simp at h

/-- Witness for C9 at the position {supplied := 5, borrowed := 7} with
amount 2. -/
theorem c9_witness :
    (refresh_position_after_withdraw ⟨5, 7⟩ 2).borrowed_amount = 7 ∧
    ((⟨7, 7⟩ : PositionData)).borrowed_amount = 7 := by
  have h := c9_frame_conditions ⟨5, 7⟩ 2
  exact ⟨h.1, h.2.2.1 ⟨7, 7⟩ (by decide)⟩

/-- C3 counterexample: in a batch of two pool logs where the first fails to
decode and the second is a valid Supply of 100 by the tracked user, the
block's processing aborts with the decode error and the second log is never
applied — although the second log alone would have been applied.  The claim
that the remaining logs are still classified and applied is false. -/
theorem c3_counterexample :
    process_logs defaultTrackedFilter ⟨1000, 0⟩ [decodeFailLog, supplyLog100] =
      .error .decodeError ∧
    process_logs defaultTrackedFilter ⟨1000, 0⟩ [supplyLog100] = .ok ⟨1100, 0⟩ :=
  ⟨rfl, rfl⟩

/-- C3 (amended): a decode failure on one log aborts the processing of the
whole batch — the error is propagated by `?` out of `ethereum_listening`,
so none of the remaining logs of that block are classified or applied (the
supervisor later restarts the listener). -/
theorem c3_decode_failure_aborts_batch (f : TrackedFilter) (st : PositionData)
    (log : RawLog) (rest : List RawLog) (e : ListenError)
    (h : process_log f st log = .error e) :
    process_logs f st (log :: rest) = .error e := by
  simp only [process_logs, h]

/-- Witness for the amended C3 on a concrete failing log followed by a
further log. -/
theorem c3_witness :
    process_logs defaultTrackedFilter ⟨5, 5⟩ [decodeFailLog, supplyLog100] =
      .error .decodeError :=
  c3_decode_failure_aborts_batch defaultTrackedFilter ⟨5, 5⟩ decodeFailLog
    [supplyLog100] .decodeError rfl

/-- C4 counterexample: with zero supplied amount (so suppliedValueUsd = 0),
a borrowed amount of 1000000 at price 60000 USD and 8 decimals
(borrowedValueUsd = 600), and threshold 0.89, the health evaluation divides
by zero, obtains +infinity, and returns `true` — not `false` as claimed. -/
theorem c4_counterexample :
    is_health_factor_in_liquidation_range ⟨0, 1000000⟩
      (some ⟨"USDT", .fin 1, 6⟩) (some ⟨"WBTC", .fin 60000, 8⟩) 6 8
      (.fin (89 / 100)) = .ok true := by
  simp [is_health_factor_in_liquidation_range, health_factor_breached,
    fdiv, fmul, fgt]

/-- C4 (amended): when the supplied amount is 0 (so suppliedValueUsd is 0,
for any finite supply price) and the borrowed value computes to a finite
non-negative b, the evaluation returns `thresholdBreached = false` only
when b = 0 (0/0 is NaN and every NaN comparison is false); when b > 0 the
division by zero yields +infinity and the evaluation returns `true` for any
finite threshold. -/
theorem c4_zero_collateral_verdict (pos : PositionData) (sp t b : ℚ)
    (bp : FVal) (sd bd : Nat)
    (h0 : pos.supplied_amount = 0)
    (hb : fdiv (fmul bp (.fin (pos.borrowed_amount : ℚ)))
            (.fin ((10 : ℚ) ^ bd)) = .fin b)
    (hbn : 0 ≤ b) :
    health_factor_breached pos (.fin sp) bp sd bd (.fin t) = decide (0 < b) := by
  unfold health_factor_breached
  rw [hb, h0]
  have hzero : fdiv (fmul (FVal.fin sp) (.fin ((0 : Nat) : ℚ)))
      (.fin ((10 : ℚ) ^ sd)) = .fin 0 := by
    have hpow : ((10 : ℚ) ^ sd) ≠ 0 := by positivity
    simp [fmul, fdiv, hpow]
  rw [hzero]
  rcases lt_or_eq_of_le hbn with hpos | hzero'
  · simp [fdiv, fgt, hpos, ne_of_gt hpos]
  · simp [fdiv, fgt, ← hzero']

/-- Witness for the amended C4 on the counterexample's inputs: borrowed
value 600 > 0, so the verdict is `true`. -/
theorem c4_witness :
    health_factor_breached ⟨0, 1000000⟩ (.fin 1) (.fin 60000) 6 8
      (.fin (89 / 100)) = decide ((0 : ℚ) < 600) :=
  c4_zero_collateral_verdict ⟨0, 1000000⟩ 1 (89 / 100) 600 (.fin 60000) 6 8
    rfl (by simp [fdiv, fmul]; norm_num) (by norm_num)

/-- C5: the Position actually read by the health evaluator and mutated by
the listener is the `POSITION_DATA` global, whose lazy_static initialiser is
`PositionData::new()` = {0, 0}; with INITIAL_SUPPLIED_AMOUNT=1000 and
INITIAL_BORROWED_AMOUNT=0 configured, the env-reading
`chains::get_position_data` (used only by the startup printout) yields
{1000, 0}, which differs from the store's initial value.  The code
contradicts its own comment that the bot initialises the position from the
environment variables, so this is a code bug, not a spec error. -/
theorem c5_store_ignores_configured_initial_amounts :
    ethereum_initial_position = PositionData.new ∧
    chains_get_position_data ⟨some 1000, some 0⟩ = ⟨1000, 0⟩ ∧
    ethereum_initial_position ≠ chains_get_position_data ⟨some 1000, some 0⟩ := by
  refine ⟨rfl, rfl, ?_⟩
  decide

/-- C6 counterexample: a cycle with an absent supply price followed by a
fully priced cycle makes the evaluator loop end in the `.expect` panic:
no verdict is produced for either cycle, although the second cycle alone
would have evaluated to a verdict.  The claim that the cycle is skipped and
the loop keeps evaluating is false. -/
theorem c6_counterexample :
    health_evaluator_loop [cycleMissingPrice, cycleGoodPrices] =
      .error "Failed to get supply price" ∧
    health_evaluator_loop [cycleGoodPrices] = .ok [true] := by
  constructor
  · rfl
  · simp [health_evaluator_loop, run_eval_cycle, cycleGoodPrices,
      is_health_factor_in_liquidation_range, health_factor_breached,
      fdiv, fmul, fgt]
    norm_num

/-- C6 (amended): when either price is absent, the `.expect` in
`is_health_factor_in_liquidation_range` panics and the health-evaluator
task's loop terminates with that panic: no verdict is produced for the
cycle and no subsequent cycle is ever evaluated (nothing restarts the
task). -/
theorem c6_missing_price_stops_evaluator (c : EvalCycle) (rest : List EvalCycle)
    (h : c.supply_price_result = none ∨ c.borrowed_price_result = none) :
    ∃ e, health_evaluator_loop (c :: rest) = .error e := by
  rcases h with h | h
  · exact ⟨"Failed to get supply price", by
      simp [health_evaluator_loop, run_eval_cycle,
        is_health_factor_in_liquidation_range, h]⟩
  · cases hs : c.supply_price_result with
    | none =>
      exact ⟨"Failed to get supply price", by
        simp [health_evaluator_loop, run_eval_cycle,
          is_health_factor_in_liquidation_range, hs]⟩
    | some sp =>
      exact ⟨"Failed to get borrowed price", by
        simp [health_evaluator_loop, run_eval_cycle,
          is_health_factor_in_liquidation_range, hs, h]⟩

/-- Witness for the amended C6 on a concrete cycle with an absent supply
price. -/
theorem c6_witness :
    ∃ e, health_evaluator_loop [cycleMissingPrice, cycleGoodPrices] = .error e :=
  c6_missing_price_stops_evaluator cycleMissingPrice [cycleGoodPrices]
    (Or.inl rfl)

/-- C7: a log whose emitting address differs from the tracked pool contract
leaves the position unchanged and no decode of it is attempted (the
returned flag is `false`), whatever its topics and payload — including a
first topic equal to one of the four event-signature hashes. -/
theorem c7_foreign_address_rejected_before_decode (f : TrackedFilter)
    (st : PositionData) (log : RawLog)
    (h : log.address ≠ f.pool_address) :
    process_log f st log = .ok (st, false) := by
  simp only [process_log, if_pos h]

/-- Witness for C7: a log from a foreign contract carrying the Supply topic
and a decodable payload for the tracked user is skipped without decode. -/
theorem c7_witness :
    process_log defaultTrackedFilter ⟨3, 4⟩ foreignPoolLog = .ok (⟨3, 4⟩, false) :=
  c7_foreign_address_rejected_before_decode defaultTrackedFilter ⟨3, 4⟩
    foreignPoolLog (by decide)

/-- C8: a pool log with one of the four known topics whose decoded record
names a user other than the tracked user is discarded after decode (flag
`true`) with the position unchanged. -/
theorem c8_untracked_user_discarded (f : TrackedFilter) (st : PositionData)
    (log : RawLog) (t : Nat) (ev : DecodedEvent)
    (haddr : log.address = f.pool_address)
    (htop : log.topics.head? = some t)
    (hknown : t = SUPPLY_EVENT_TOPIC ∨ t = WITHDRAW_EVENT_TOPIC ∨
      t = REPAY_EVENT_TOPIC ∨ t = BORROW_EVENT_TOPIC)
    (hdec : log.decode_result = some ev)
    (huser : ev.user ≠ f.user_address) :
    process_log f st log = .ok (st, true) := by
  rcases hknown with h | h | h | h <;>
    subst h <;>
    simp [process_log, haddr, htop, hdec, huser,
      SUPPLY_EVENT_TOPIC, WITHDRAW_EVENT_TOPIC, REPAY_EVENT_TOPIC,
      BORROW_EVENT_TOPIC]

/-- Witness for C8: a pool Supply log decoding to an untracked user leaves
the position {3, 4} unchanged. -/
theorem c8_witness :
    process_log defaultTrackedFilter ⟨3, 4⟩ untrackedUserLog = .ok (⟨3, 4⟩, true) :=
  c8_untracked_user_discarded defaultTrackedFilter ⟨3, 4⟩ untrackedUserLog
    SUPPLY_EVENT_TOPIC ⟨USDT_ADDRESS, 0x2222222222222222222222222222222222222222, 100⟩
    rfl rfl (Or.inl rfl) rfl (by decide)

/-- C10: the listener never consults the decoded event's reserve (asset)
address — processing a log is invariant under changing the reserve field —
and a tracked user's event on the tracked pool is applied whatever the
reserve is (shown for Withdraw, whose application is total). -/
theorem c10_reserve_address_ignored :
    (∀ (f : TrackedFilter) (st : PositionData) (addr : Nat) (tps : List Nat)
        (r1 r2 u a : Nat),
        process_log f st ⟨addr, tps, some ⟨r1, u, a⟩⟩ =
          process_log f st ⟨addr, tps, some ⟨r2, u, a⟩⟩) ∧
    (∀ (f : TrackedFilter) (st : PositionData) (r a : Nat),
        process_log f st
            ⟨f.pool_address, [WITHDRAW_EVENT_TOPIC], some ⟨r, f.user_address, a⟩⟩ =
          .ok (refresh_position_after_withdraw st a, true)) := by
  constructor
  · intro f st addr tps r1 r2 u a
    rfl
  · intro f st r a
    simp [process_log, SUPPLY_EVENT_TOPIC, WITHDRAW_EVENT_TOPIC]

end AaveMonitor
